import Mathlib

/-!
Verification development for the octo-robot game (a chunk-based procedurally
generated 2D arcade game).  The definitions below are a shallow embedding of
the Python sources under src/: game state machine (game_state.py, game_mode.py),
player movement (player.py), item and obstacle chunk generation (item_manager.py,
obstacle_manager.py), the high-score ledger (high_score_manager.py) and the
camera follow controller (octo_robot_game.py).  Python floats are modelled as
rationals, Python strings as Lean strings or character lists, Python dicts as
association lists, and the global pseudo-random stream as explicit state
passing over an abstract generator interface.
-/

namespace OctoRobot

/-! ### Game state machine: src/game/game_state.py and src/game/game_mode.py -/

/-- The GameState enum from game_state.py (lines 4-9).  The source enum has
exactly these five members. -/
inductive GameState where
  | PLAYING
  | GAME_OVER
  | NAME_ENTRY
  | HIGH_SCORES
  | PAUSED
deriving DecidableEq, Repr

/-- The string value attached to each enum member in the source. -/
def GameState.value : GameState → String
  | .PLAYING => "playing"
  | .GAME_OVER => "game_over"
  | .NAME_ENTRY => "name_entry"
  | .HIGH_SCORES => "high_scores"
  | .PAUSED => "paused"

/-- Enumeration of every GameState member, in source order. -/
def GameState.all : List GameState :=
  [.PLAYING, .GAME_OVER, .NAME_ENTRY, .HIGH_SCORES, .PAUSED]

/-- The GameMode enum from game_mode.py. -/
inductive GameMode where
  | FLETCHY
  | SPENCY
  | CHARLIE
deriving DecidableEq, Repr

/-- GameMode.get_margin_multiplier from game_mode.py (the source's final
fallback return 1.0 is unreachable for a closed enum). -/
def GameMode.get_margin_multiplier : GameMode → ℚ
  | .FLETCHY => 3.5
  | .SPENCY => 1.0
  | .CHARLIE => 0.7

/-- GameStateManager from game_state.py.  The entered-name buffer (a Python
str) is modelled as a list of characters. -/
structure GameStateManager where
  current_state : GameState
  previous_state : GameState
  score : Int
  game_time : ℚ
  target_score : Int
  entered_name : List Char
  name_entry_complete : Bool
  final_score : Int
  final_time : ℚ
  score_position : Int
deriving DecidableEq, Repr

/-- GameStateManager.__init__. -/
def GameStateManager.init : GameStateManager :=
  { current_state := .PLAYING
    previous_state := .PLAYING
    score := 0
    game_time := 0
    target_score := 100
    entered_name := []
    name_entry_complete := false
    final_score := 0
    final_time := 0
    score_position := 0 }

/-- GameStateManager.reset_game. -/
def GameStateManager.reset_game (m : GameStateManager) : GameStateManager :=
  { m with score := 0, game_time := 0, entered_name := [],
           name_entry_complete := false, final_score := 0, final_time := 0,
           score_position := 0 }

/-- GameStateManager.set_state: record previous state, switch, then run the
state-specific initialisation from the source. -/
def GameStateManager.set_state (m : GameStateManager) (new_state : GameState) :
    GameStateManager :=
  let m1 := { m with previous_state := m.current_state, current_state := new_state }
  if new_state = .NAME_ENTRY then
    { m1 with entered_name := [], name_entry_complete := false }
  else if new_state = .PLAYING then
    m1.reset_game
  else
    m1

/-- GameStateManager.update_game_time: the timer accrues only in PLAYING. -/
def GameStateManager.update_game_time (m : GameStateManager) (delta_time : ℚ) :
    GameStateManager :=
  if m.current_state = .PLAYING then { m with game_time := m.game_time + delta_time }
  else m

/-- GameStateManager.complete_game. -/
def GameStateManager.complete_game (m : GameStateManager) : GameStateManager :=
  ({ m with final_score := m.score, final_time := m.game_time }).set_state .GAME_OVER

/-- GameStateManager.add_score: add the points, then complete the game if the
target score is reached. -/
def GameStateManager.add_score (m : GameStateManager) (points : Int) :
    GameStateManager :=
  let m1 := { m with score := m.score + points }
  if m1.target_score ≤ m1.score then m1.complete_game else m1

/-- GameStateManager.reset_score. -/
def GameStateManager.reset_score (m : GameStateManager) : GameStateManager :=
  { m with score := 0 }

/-- GameStateManager.add_name_character: append only while the buffer is
shorter than 20 characters. -/
def GameStateManager.add_name_character (m : GameStateManager) (c : Char) :
    GameStateManager :=
  if m.entered_name.length < 20 then { m with entered_name := m.entered_name ++ [c] }
  else m

/-- GameStateManager.remove_name_character. -/
def GameStateManager.remove_name_character (m : GameStateManager) :
    GameStateManager :=
  if m.entered_name ≠ [] then { m with entered_name := m.entered_name.dropLast }
  else m

/-- GameStateManager.confirm_name: a buffer whose strip() is empty (that is,
every character is whitespace) is replaced by Anonymous, then the manager
moves to HIGH_SCORES. -/
def GameStateManager.confirm_name (m : GameStateManager) : GameStateManager :=
  let m1 :=
    if m.entered_name.all (fun c => c.isWhitespace) then
      { m with entered_name := ("Anonymous").toList }
    else m
  ({ m1 with name_entry_complete := true }).set_state .HIGH_SCORES

/-! ### Player: src/game/player.py -/

/-- PLAYER_COLORS keys from player.py, in source order. -/
def PLAYER_COLORS : List String :=
  ["purple", "yellow", "gray", "cyan", "red"]

/-- PLAYER_SPEED from player.py. -/
def PLAYER_SPEED : ℚ := 10

/-- PLAYER_RADIUS from player.py. -/
def PLAYER_RADIUS : ℚ := 25

/-- The Player sprite state from player.py: current colour tag, position,
velocity set by held keys, and the previous position kept for collision
rollback. -/
structure Player where
  current_color : String
  center_x : ℚ
  center_y : ℚ
  change_x : ℚ
  change_y : ℚ
  previous_center_x : ℚ
  previous_center_y : ℚ
deriving DecidableEq, Repr

/-- Player.__init__ (texture generation omitted: pure rendering). -/
def Player.init : Player :=
  { current_color := "yellow"
    center_x := 100
    center_y := 100
    change_x := 0
    change_y := 0
    previous_center_x := 100
    previous_center_y := 100 }

/-- Player.change_color: only recognised colour names take effect. -/
def Player.change_color (p : Player) (new_color : String) : Player :=
  if new_color ∈ PLAYER_COLORS then { p with current_color := new_color }
  else p

/-- Player.update with an obstacle manager present, parameterised by the
collision test the obstacle manager performs at a candidate position
(obstacle_manager.check_collision returning a truthy obstacle).  The source
first resolves the x component against the pre-move y, then resolves the y
component against the already-resolved x. -/
def Player.update (collide : ℚ → ℚ → Bool) (p : Player) : Player :=
  let prev_x := p.center_x
  let prev_y := p.center_y
  let potential_center_x := p.center_x + p.change_x
  let potential_center_y := p.center_y + p.change_y
  let target_x :=
    if p.change_x ≠ 0 ∧ collide potential_center_x p.center_y = true then prev_x
    else potential_center_x
  let target_y :=
    if p.change_y ≠ 0 ∧ collide target_x potential_center_y = true then prev_y
    else potential_center_y
  { p with center_x := target_x, center_y := target_y,
           previous_center_x := prev_x, previous_center_y := prev_y }

/-! ### Item types and the collection rule: src/game/item_manager.py and
OctoRobotGame.on_update in src/game/octo_robot_game.py -/

/-- The per-type properties from the ITEM_TYPES table in item_manager.py
(the RGB display colour is rendering-only and omitted). -/
structure ItemProps where
  value : Int
  spawn_rate : ℚ
  color_name : String
deriving DecidableEq, Repr

/-- ITEM_TYPES from item_manager.py, in source order. -/
def ITEM_TYPES : List (String × ItemProps) :=
  [("battery", { value := 1, spawn_rate := 0.4, color_name := "yellow" }),
   ("gear", { value := 2, spawn_rate := 0.3, color_name := "gray" }),
   ("gem", { value := 5, spawn_rate := 0.15, color_name := "cyan" }),
   ("crystal", { value := 10, spawn_rate := 0.1, color_name := "purple" }),
   ("power_core", { value := 20, spawn_rate := 0.05, color_name := "red" })]

/-- The collection-event record emitted by ItemManager.check_collisions. -/
structure CollectedItem where
  value : Int
  color_name : String
  type : String
deriving DecidableEq, Repr

/-- The per-collected-item branch of OctoRobotGame.on_update (lines 340-357):
a colour match adds the item's value to the score; a mismatch recolours the
player and resets the score to zero. -/
def process_collected_item (gs : GameStateManager) (p : Player)
    (item : CollectedItem) : GameStateManager × Player :=
  if item.color_name = p.current_color then
    (gs.add_score item.value, p)
  else
    (gs.reset_score, p.change_color item.color_name)

/-! ### Pseudo-random stream interface

The source uses Python's global random module: each chunk generation call
starts with random.seed(derived-from-chunk-key), draws from the stream, and
finishes with random.seed() (re-seed from OS entropy).  We model the stream
as explicit state passing over an abstract deterministic generator: any
state type with randint / uniform / random operations, a seed constructor,
and a fresh state standing for the entropy re-seed. -/

/-- Abstract deterministic pseudo-random generator over a state type sigma,
mirroring the Python random-module operations the generators draw from. -/
structure RngImpl (σ : Type) where
  randint : Int → Int → σ → Int × σ
  uniform : ℚ → ℚ → σ → ℚ × σ
  random : σ → ℚ × σ
  seed : Int → σ
  fresh : σ

/-! ### Cumulative-weighted type selection

Both generators select an entity type by walking a fixed type-weight table
with a running cumulative rate, the selection variable initialised to the
first table entry. -/

/-- The cumulative walk shared by both selection loops: cum is the running
cumulative_rate, d the initial value of selected_type (returned when no
entry's cumulative rate reaches the draw). -/
def select_go (d : String) (rand_val : ℚ) :
    List (String × ℚ) → ℚ → String
  | [], _ => d
  | (t, rate) :: rest, cum =>
    if rand_val ≤ cum + rate then t else select_go d rand_val rest (cum + rate)

/-- Cumulative-weighted selection over a type-rate table with initial default d
(cumulative_rate starts at 0). -/
def select_weighted (table : List (String × ℚ)) (d : String) (rand_val : ℚ) :
    String :=
  select_go d rand_val table 0

/-- The item type-rate table, in ITEM_TYPES order. -/
def item_rate_table : List (String × ℚ) :=
  ITEM_TYPES.map (fun e => (e.1, e.2.spawn_rate))

/-- The type-selection loop of ItemManager.generate_chunk_items (lines
111-119): selected_type starts as battery. -/
def select_item_type (rand_val : ℚ) : String :=
  select_weighted item_rate_table ("battery") rand_val

/-- The per-type properties from the OBSTACLE_TYPES table in
obstacle_manager.py (the display colour is rendering-only and omitted; the
shape hint is kept because the rect_cluster texture branch consumes global
random draws). -/
structure ObstacleProps where
  radius : ℚ
  spawn_rate : ℚ
  destructible : Bool
  shape : String
deriving DecidableEq, Repr

/-- OBSTACLE_TYPES from obstacle_manager.py, in source order. -/
def OBSTACLE_TYPES : List (String × ObstacleProps) :=
  [("rock",
    { radius := 30, spawn_rate := 0.5, destructible := false,
      shape := "irregular_polygon" }),
   ("tree",
    { radius := 25, spawn_rate := 0.3, destructible := false,
      shape := "tree" }),
   ("crystal_formation",
    { radius := 35, spawn_rate := 0.15, destructible := false,
      shape := "crystal_cluster" }),
   ("metal_debris",
    { radius := 20, spawn_rate := 0.05, destructible := true,
      shape := "rect_cluster" })]

/-- The obstacle type-rate table, in OBSTACLE_TYPES order. -/
def obstacle_rate_table : List (String × ℚ) :=
  OBSTACLE_TYPES.map (fun e => (e.1, e.2.spawn_rate))

/-- The type-selection loop of ObstacleManager.generate_chunk_obstacles
(lines 184-191): selected_type starts as rock. -/
def select_obstacle_type (rand_val : ℚ) : String :=
  select_weighted obstacle_rate_table ("rock") rand_val

/-! ### Item chunk generation: src/game/item_manager.py -/

/-- CHUNK_SIZE shared by item_manager.py and obstacle_manager.py. -/
def CHUNK_SIZE : ℚ := 500

/-- ITEMS_PER_CHUNK from item_manager.py. -/
def ITEMS_PER_CHUNK : Int := 8

/-- An Item sprite as constructed by Item.__init__ (value and colour name
are derived from the type tag via ITEM_TYPES and omitted as redundant). -/
structure ItemEnt where
  center_x : ℚ
  center_y : ℚ
  type : String
  collected : Bool
deriving DecidableEq, Repr

/-- The per-item body of the generation loop in
ItemManager.generate_chunk_items, iterated num_items times: draw a local
position uniformly in the chunk, then a type by cumulative-weighted
sampling. -/
def gen_items_loop {σ : Type} (R : RngImpl σ) (chunk_x chunk_y : Int) :
    Nat → σ → List ItemEnt × σ
  | 0, s => ([], s)
  | n + 1, s =>
    let (local_x, s1) := R.uniform 0 CHUNK_SIZE s
    let (local_y, s2) := R.uniform 0 CHUNK_SIZE s1
    let world_x := chunk_x * CHUNK_SIZE + local_x
    let world_y := chunk_y * CHUNK_SIZE + local_y
    let (rand_val, s3) := R.random s2
    let selected_type := select_item_type rand_val
    let (rest, s4) := gen_items_loop R chunk_x chunk_y n s3
    ({ center_x := world_x, center_y := world_y, type := selected_type,
       collected := false } :: rest, s4)

/-- The body of ItemManager.generate_chunk_items once the idempotence guard
has passed and the stream has been seeded: draw num_items, then run the
generation loop. -/
def item_chunk_body {σ : Type} (R : RngImpl σ) (chunk_x chunk_y : Int)
    (s : σ) : List ItemEnt × σ :=
  let (num_items, s1) := R.randint (ITEMS_PER_CHUNK - 3) (ITEMS_PER_CHUNK + 3) s
  gen_items_loop R chunk_x chunk_y num_items.toNat s1

/-- ItemManager state: the generated-chunk set, the chunk-key to item-list
dict (as an association list with newest binding first), and the ambient
random-module state. -/
structure ItemManager (σ : Type) where
  generated_chunks : List (Int × Int)
  chunk_items : List ((Int × Int) × List ItemEnt)
  rng : σ
deriving Repr

/-- ItemManager.generate_chunk_items, parameterised by the Python hash
function on integer pairs.  A key already in generated_chunks returns
immediately; otherwise the stream is seeded from hash(chunk_key) mod 2^31,
the chunk body runs, the results are recorded, and random.seed() re-seeds
the ambient stream from entropy. -/
def generate_chunk_items {σ : Type} (R : RngImpl σ) (pyHash : Int × Int → Int)
    (chunk_x chunk_y : Int) (m : ItemManager σ) : ItemManager σ :=
  let chunk_key := (chunk_x, chunk_y)
  if chunk_key ∈ m.generated_chunks then m
  else
    let s0 := R.seed (pyHash chunk_key % (2 ^ 31 : Int))
    let (items, _s1) := item_chunk_body R chunk_x chunk_y s0
    { generated_chunks := chunk_key :: m.generated_chunks
      chunk_items := (chunk_key, items) :: m.chunk_items
      rng := R.fresh }

/-- The entity list that item chunk generation produces for a key: a pure
function of the key, the hash and the generator implementation. -/
def items_for {σ : Type} (R : RngImpl σ) (pyHash : Int × Int → Int)
    (key : Int × Int) : List ItemEnt :=
  (item_chunk_body R key.1 key.2 (R.seed (pyHash key % (2 ^ 31 : Int)))).1

/-- Fold ItemManager.generate_chunk_items over a list of chunk keys. -/
def run_item_gen {σ : Type} (R : RngImpl σ) (pyHash : Int × Int → Int)
    (keys : List (Int × Int)) (m : ItemManager σ) : ItemManager σ :=
  keys.foldl (fun acc k => generate_chunk_items R pyHash k.1 k.2 acc) m

/-! ### Obstacle chunk generation: src/game/obstacle_manager.py -/

/-- OBSTACLES_PER_CHUNK from obstacle_manager.py. -/
def OBSTACLES_PER_CHUNK : Int := 6

/-- An Obstacle sprite as constructed by Obstacle.__init__: radius and
destructibility come from the OBSTACLE_TYPES table (with the source's
defaults 30.0 and False for a missing property). -/
structure ObstacleEnt where
  center_x : ℚ
  center_y : ℚ
  type : String
  radius : ℚ
  destructible : Bool
  destroyed : Bool
deriving DecidableEq, Repr

/-- The data fields Obstacle.__init__ sets from the OBSTACLE_TYPES table
(with the source's defaults 30.0 and False for a missing property).  The
texture side effects of the constructor are modelled by obstacle_init
below. -/
def mk_obstacle (x y : ℚ) (obstacle_type : String) : ObstacleEnt :=
  let props := (OBSTACLE_TYPES.lookup obstacle_type).getD
    { radius := 30, spawn_rate := 0, destructible := false, shape := "circle" }
  { center_x := x, center_y := y, type := obstacle_type,
    radius := props.radius, destructible := props.destructible,
    destroyed := false }

/-- One iteration of the rect_cluster loop in _get_obstacle_texture
(obstacle_manager.py lines 117-123): rx, ry, rw, rh are drawn from the
global stream; the drawn values only shape the texture image, but the draws
advance the stream. -/
def rect_cluster_draw {σ : Type} (R : RngImpl σ) (radius : ℚ) (s : σ) : σ :=
  let d1 := R.uniform (-(radius * 0.4)) (radius * 0.4) s
  let d2 := R.uniform (-(radius * 0.4)) (radius * 0.4) d1.2
  let d3 := R.uniform (radius * 0.2) (radius * 0.5) d2.2
  let d4 := R.uniform (radius * 0.2) (radius * 0.5) d3.2
  d4.2

/-- The stream and cache effects of _get_obstacle_texture (obstacle_manager.py
lines 47-130): a cached type returns at once; otherwise the texture is built
and cached, and the rect_cluster shape (metal_debris) additionally consumes
three iterations of four uniform draws from the global stream.  The other
shape branches and the unknown-type fallback draw nothing. -/
def get_obstacle_texture {σ : Type} (R : RngImpl σ) (cache : List String)
    (obstacle_type : String) (s : σ) : List String × σ :=
  if obstacle_type ∈ cache then (cache, s)
  else
    match OBSTACLE_TYPES.lookup obstacle_type with
    | none => (obstacle_type :: cache, s)
    | some props =>
      let s1 :=
        if props.shape = "rect_cluster" then
          rect_cluster_draw R props.radius
            (rect_cluster_draw R props.radius (rect_cluster_draw R props.radius s))
        else s
      (obstacle_type :: cache, s1)

/-- Obstacle.__init__: set the data fields and fetch the texture, whose
cache misses mutate the texture cache and (for metal_debris) the global
stream. -/
def obstacle_init {σ : Type} (R : RngImpl σ) (cache : List String)
    (x y : ℚ) (obstacle_type : String) (s : σ) :
    ObstacleEnt × List String × σ :=
  let t := get_obstacle_texture R cache obstacle_type s
  (mk_obstacle x y obstacle_type, t.1, t.2)

/-- Squared distance between two obstacle centres. -/
def dist_sq (a b : ObstacleEnt) : ℚ :=
  (a.center_x - b.center_x) ^ 2 + (a.center_y - b.center_y) ^ 2

/-- The placement validity test of generate_chunk_obstacles: the candidate
is rejected when its centre is closer than radius_a + radius_b + 20 to any
already-placed obstacle.  The source compares the Euclidean distance; we
compare squares, which is equivalent since both sides are nonnegative. -/
def valid_position (new_obstacle : ObstacleEnt)
    (current : List ObstacleEnt) : Bool :=
  current.all (fun existing =>
    decide ((new_obstacle.radius + existing.radius + 20) ^ 2 ≤
      dist_sq new_obstacle existing))

/-- The reject-and-retry placement loop of generate_chunk_obstacles (lines
177-208).  fuel is the number of attempts still allowed (max_attempts minus
attempts made); the returned Nat is the total attempts made.  Each candidate
Obstacle is constructed before the validity test, so its texture cache miss
(and, for metal_debris, the twelve uniform draws) happens even for rejected
candidates, exactly as in the source. -/
def place_obstacles {σ : Type} (R : RngImpl σ) (chunk_x chunk_y : Int)
    (num_obstacles : Nat) :
    Nat → List ObstacleEnt → Nat → List String → σ →
      List ObstacleEnt × Nat × List String × σ
  | 0, current, attempts, cache, s => (current, attempts, cache, s)
  | fuel + 1, current, attempts, cache, s =>
    if current.length < num_obstacles then
      let u1 := R.uniform 50 (CHUNK_SIZE - 50) s
      let u2 := R.uniform 50 (CHUNK_SIZE - 50) u1.2
      let world_x := chunk_x * CHUNK_SIZE + u1.1
      let world_y := chunk_y * CHUNK_SIZE + u2.1
      let r3 := R.random u2.2
      let ini := obstacle_init R cache world_x world_y (select_obstacle_type r3.1) r3.2
      let current1 :=
        if valid_position ini.1 current then current ++ [ini.1]
        else current
      place_obstacles R chunk_x chunk_y num_obstacles fuel current1 (attempts + 1)
        ini.2.1 ini.2.2
    else (current, attempts, cache, s)

/-- The body of ObstacleManager.generate_chunk_obstacles once the guard has
passed and the stream has been seeded: draw num_obstacles, then run the
placement loop with max_attempts = num_obstacles * 3, threading the
process-wide texture cache. -/
def obstacle_chunk_body {σ : Type} (R : RngImpl σ) (cache : List String)
    (chunk_x chunk_y : Int) (s : σ) :
    List ObstacleEnt × Nat × List String × σ :=
  let r0 := R.randint (OBSTACLES_PER_CHUNK - 2) (OBSTACLES_PER_CHUNK + 4) s
  place_obstacles R chunk_x chunk_y r0.1.toNat (r0.1.toNat * 3) [] 0 cache r0.2

/-- ObstacleManager state.  texture_cache models the module-global
_obstacle_texture_cache, which persists across generation calls (unlike the
stream, it is never re-seeded). -/
structure ObstacleManager (σ : Type) where
  generated_chunks : List (Int × Int)
  chunk_obstacles : List ((Int × Int) × List ObstacleEnt)
  texture_cache : List String
  rng : σ
deriving Repr

/-- ObstacleManager.generate_chunk_obstacles: the guard, the seed derived
from hash((chunk_x + 1000, chunk_y + 1000)) mod 2^31, the placement loop
(which may consume texture draws on cache misses), recording, and the
entropy re-seed. -/
def generate_chunk_obstacles {σ : Type} (R : RngImpl σ)
    (pyHash : Int × Int → Int) (chunk_x chunk_y : Int)
    (m : ObstacleManager σ) : ObstacleManager σ :=
  let chunk_key := (chunk_x, chunk_y)
  if chunk_key ∈ m.generated_chunks then m
  else
    let s0 := R.seed (pyHash (chunk_key.1 + 1000, chunk_key.2 + 1000) % (2 ^ 31 : Int))
    let body := obstacle_chunk_body R m.texture_cache chunk_x chunk_y s0
    { generated_chunks := chunk_key :: m.generated_chunks
      chunk_obstacles := (chunk_key, body.1) :: m.chunk_obstacles
      texture_cache := body.2.2.1
      rng := R.fresh }

/-- Fold ObstacleManager.generate_chunk_obstacles over a list of chunk keys. -/
def run_obstacle_gen {σ : Type} (R : RngImpl σ) (pyHash : Int × Int → Int)
    (keys : List (Int × Int)) (m : ObstacleManager σ) : ObstacleManager σ :=
  keys.foldl (fun acc k => generate_chunk_obstacles R pyHash k.1 k.2 acc) m

/-! ### High-score ledger: src/game/high_score_manager.py

Entries are modelled without the date field (it is set from the wall clock
and takes no part in ordering, truncation or rank lookup).  Python's
list.sort with key (-score, time) is a stable sort by that key; we model it
with List.mergeSort, which is also stable, so the two agree exactly. -/

/-- A persisted high-score record (name, score, time). -/
structure HSEntry where
  name : String
  score : Int
  time : ℚ
deriving DecidableEq, Repr

/-- The sort order used by save_scores: score descending, then time
ascending (the Python key (-score, time) compared lexicographically). -/
def hs_le (a b : HSEntry) : Bool :=
  decide (b.score < a.score ∨ (a.score = b.score ∧ a.time ≤ b.time))

/-- HighScoreManager.save_scores restricted to its pure core: sort by the
ledger order and keep only the top 10 (file writing is a collaborator). -/
def save_scores (l : List HSEntry) : List HSEntry :=
  (l.mergeSort hs_le).take 10

/-- HighScoreManager.is_high_score: fewer than 10 entries always qualify;
otherwise append a blank-named probe entry, sort, and look for the probe in
the top 10. -/
def is_high_score (l : List HSEntry) (score : Int) (time : ℚ) : Bool :=
  if l.length < 10 then true
  else
    let temp_scores :=
      (l ++ [({ name := "", score := score, time := time } : HSEntry)]).mergeSort hs_le
    (temp_scores.take 10).any (fun e =>
      decide (e.score = score ∧ e.time = time ∧ e.name = ""))

/-- The position scan at the end of add_score: 1-based index of the first
entry matching the inserted name, score and time, or 0 when absent. -/
def find_pos : List HSEntry → HSEntry → Nat → Nat
  | [], _, _ => 0
  | x :: xs, e, i => if x = e then i + 1 else find_pos xs e (i + 1)

/-- HighScoreManager.add_score: a non-qualifying score returns 0 and leaves
the ledger alone; otherwise the entry is appended, the ledger re-sorted and
truncated, and the new entry's 1-based position returned. -/
def add_score (l : List HSEntry) (name : String) (score : Int) (time : ℚ) :
    List HSEntry × Nat :=
  if is_high_score l score time = true then
    let new_entry : HSEntry := { name := name, score := score, time := time }
    let l1 := save_scores (l ++ [new_entry])
    (l1, find_pos l1 new_entry 0)
  else (l, 0)

/-! ### Camera follow controller: OctoRobotGame.scroll_camera_to_player in
src/game/octo_robot_game.py (lines 387-417)

MARGIN_X and MARGIN_Y come from game/config.py (absent from the sources we
were given), so the tick is parameterised by them. -/

/-- One camera-follow tick: clamp the margins to a quarter of the screen,
compute the dead-zone boundaries around the current camera position, pick a
target that re-centres a crossed boundary on the player (or the current
position when the player is inside the dead zone), then lerp 10% of the way
toward the target. -/
def scroll_camera_to_player (MARGIN_X MARGIN_Y screen_width screen_height
    player_x player_y : ℚ) (cam : ℚ × ℚ) : ℚ × ℚ :=
  let margin_x := min MARGIN_X (screen_width * 0.25)
  let margin_y := min MARGIN_Y (screen_height * 0.25)
  let cam_x := cam.1
  let cam_y := cam.2
  let left_boundary := cam_x - screen_width / 2 + margin_x
  let right_boundary := cam_x + screen_width / 2 - margin_x
  let bottom_boundary := cam_y - screen_height / 2 + margin_y
  let top_boundary := cam_y + screen_height / 2 - margin_y
  let target_x :=
    if player_x < left_boundary then player_x - margin_x + screen_width / 2
    else if right_boundary < player_x then player_x + margin_x - screen_width / 2
    else cam_x
  let target_y :=
    if player_y < bottom_boundary then player_y - margin_y + screen_height / 2
    else if top_boundary < player_y then player_y + margin_y - screen_height / 2
    else cam_y
  let lerp_factor : ℚ := 0.1
  (cam_x + (target_x - cam_x) * lerp_factor,
   cam_y + (target_y - cam_y) * lerp_factor)

/-! ### Helper lemmas -/

/-- Adding points never changes the score total recorded by add_score, even
when the target is reached and the game completes (complete_game only
snapshots and switches state). -/
lemma add_score_score (m : GameStateManager) (points : Int) :
    (m.add_score points).score = m.score + points := by
  simp only [GameStateManager.add_score, GameStateManager.complete_game,
    GameStateManager.set_state, GameStateManager.reset_game]
  split_ifs <;> simp_all

/-- A concrete deterministic generator instantiating the abstract interface
for closed-form checks: the state is a step counter. -/
def counterRng : RngImpl Nat :=
  { randint := fun a _ s => (a, s + 1)
    uniform := fun a _ s => (a, s + 1)
    random := fun s => (0, s + 1)
    seed := fun n => n.toNat
    fresh := 0 }

/-- A concrete stand-in for Python's hash on integer pairs, used only to
instantiate closed-form checks. -/
def pairHash (k : Int × Int) : Int := 31 * k.1 + k.2

/-! ### C1: score/colour coupling on item collection -/

/-- C1: on collecting an item during PLAYING, a colour match adds the item's
value to the score and leaves the player's colour unchanged; a mismatch
resets the score to zero and recolours the player to the item's colour. -/
theorem collection_score_color_rule (gs : GameStateManager) (p : Player)
    (item : CollectedItem)
    (_hstate : gs.current_state = .PLAYING)
    (hcolor : item.color_name ∈ ITEM_TYPES.map (fun e => e.2.color_name)) :
    (item.color_name = p.current_color →
      (process_collected_item gs p item).1.score = gs.score + item.value ∧
      (process_collected_item gs p item).2 = p) ∧
    (item.color_name ≠ p.current_color →
      (process_collected_item gs p item).1.score = 0 ∧
      (process_collected_item gs p item).2.current_color = item.color_name) := by
  constructor
  · intro h
    refine ⟨?_, ?_⟩
    · simp only [process_collected_item, if_pos h]
      exact add_score_score gs item.value
    · simp [process_collected_item, if_pos h]
  · intro h
    have hmem : item.color_name ∈ PLAYER_COLORS := by
      simp only [ITEM_TYPES, List.map_cons, List.map_nil, List.mem_cons,
        List.not_mem_nil, or_false] at hcolor
      rcases hcolor with h | h | h | h | h <;> rw [h] <;> decide
    refine ⟨?_, ?_⟩
    · simp [process_collected_item, if_neg h, GameStateManager.reset_score]
    · simp [process_collected_item, if_neg h, Player.change_color, hmem]

/-- Closed check for C1 at a concrete state: a yellow player with score 50
collecting a gray gear is recoloured gray with score 0, while collecting a
yellow battery scores. -/
theorem collection_score_color_rule_check :
    (let gs : GameStateManager := { GameStateManager.init with score := 50 }
     let p : Player := Player.init
     let item : CollectedItem := { value := 2, color_name := "gray", type := "gear" }
     ("gray" ≠ p.current_color →
      (process_collected_item gs p item).1.score = 0 ∧
      (process_collected_item gs p item).2.current_color = "gray")) := by
  exact (collection_score_color_rule { GameStateManager.init with score := 50 }
    Player.init { value := 2, color_name := "gray", type := "gear" }
    (by rfl) (by decide)).2

/-! ### C3: generation is idempotent on already-generated chunks -/

/-- C3: calling either chunk generator for a key already in its
generated-chunk set is a no-op: the whole manager state, in particular every
chunk entity list and the generated set, is unchanged. -/
theorem generation_idempotent {σ : Type} (R : RngImpl σ)
    (pyHash : Int × Int → Int) (chunk_x chunk_y : Int)
    (mi : ItemManager σ) (mo : ObstacleManager σ)
    (hi : (chunk_x, chunk_y) ∈ mi.generated_chunks)
    (ho : (chunk_x, chunk_y) ∈ mo.generated_chunks) :
    generate_chunk_items R pyHash chunk_x chunk_y mi = mi ∧
    generate_chunk_obstacles R pyHash chunk_x chunk_y mo = mo := by
  constructor
  · simp [generate_chunk_items, hi]
  · simp [generate_chunk_obstacles, ho]

/-- Closed check for C3: regenerating chunk (0, 0) on managers that already
hold it changes nothing. -/
theorem generation_idempotent_check :
    generate_chunk_items counterRng pairHash 0 0
      { generated_chunks := [(0, 0)], chunk_items := [((0, 0), [])], rng := 7 } =
      { generated_chunks := [(0, 0)], chunk_items := [((0, 0), [])], rng := 7 } ∧
    generate_chunk_obstacles counterRng pairHash 0 0
      { generated_chunks := [(0, 0)], chunk_obstacles := [((0, 0), [])],
        texture_cache := [], rng := 7 } =
      { generated_chunks := [(0, 0)], chunk_obstacles := [((0, 0), [])],
        texture_cache := [], rng := 7 } :=
  generation_idempotent counterRng pairHash 0 0 _ _ (by decide) (by decide)

/-! ### C4: axis-separated movement resolution -/

/-- C4: a player moving with dx > 0 and dy > 0 whose x step alone collides
but whose y step at the reverted x does not ends the tick with x unchanged
and y advanced by dy (diagonal slide). -/
theorem axis_separated_slide (collide : ℚ → ℚ → Bool) (p : Player)
    (hdx : 0 < p.change_x) (hdy : 0 < p.change_y)
    (hx : collide (p.center_x + p.change_x) p.center_y = true)
    (hy : collide p.center_x (p.center_y + p.change_y) = false) :
    (p.update collide).center_x = p.center_x ∧
    (p.update collide).center_y = p.center_y + p.change_y := by
  simp [Player.update, hx, hy, hdx.ne', hdy.ne']

/-- Closed check for C4: a wall east of the player blocks x but the diagonal
slide advances y. -/
theorem axis_separated_slide_check :
    (let wall : ℚ → ℚ → Bool := fun x y => decide (105 ≤ x ∧ y ≤ 102)
     let p : Player :=
       { current_color := "yellow", center_x := 100, center_y := 100,
         change_x := 10, change_y := 10, previous_center_x := 100,
         previous_center_y := 100 }
     (p.update wall).center_x = 100 ∧ (p.update wall).center_y = 110) := by
  have h := axis_separated_slide (fun x y => decide (105 ≤ x ∧ y ≤ 102))
    { current_color := "yellow", center_x := 100, center_y := 100,
      change_x := 10, change_y := 10, previous_center_x := 100,
      previous_center_y := 100 }
    (by norm_num) (by norm_num) (by norm_num) (by norm_num)
  refine ⟨h.1, ?_⟩
  rw [h.2]
  norm_num

/-! ### C8: camera dead-zone invariance -/

/-- C8: when the player is strictly inside the margin-adjusted dead zone,
one camera tick computes target = current and leaves the camera exactly
unchanged, hence any number of consecutive such ticks leaves it unchanged. -/
theorem camera_dead_zone (MARGIN_X MARGIN_Y w h px py cx cy : ℚ) (n : Nat)
    (hl : cx - w / 2 + min MARGIN_X (w * 0.25) < px)
    (hr : px < cx + w / 2 - min MARGIN_X (w * 0.25))
    (hb : cy - h / 2 + min MARGIN_Y (h * 0.25) < py)
    (ht : py < cy + h / 2 - min MARGIN_Y (h * 0.25)) :
    scroll_camera_to_player MARGIN_X MARGIN_Y w h px py (cx, cy) = (cx, cy) ∧
    (fun cam => scroll_camera_to_player MARGIN_X MARGIN_Y w h px py cam)^[n]
      (cx, cy) = (cx, cy) := by
  have h1 : scroll_camera_to_player MARGIN_X MARGIN_Y w h px py (cx, cy) = (cx, cy) := by
    simp only [scroll_camera_to_player]
    split_ifs <;>
      first
      | (exfalso; linarith)
      | (simp only [Prod.mk.injEq]; constructor <;> ring)
  refine ⟨h1, ?_⟩
  induction n with
  | zero => rfl
  | succ k ih => rw [Function.iterate_succ_apply', ih, h1]

/-- Closed check for C8: a centred player never moves an origin camera. -/
theorem camera_dead_zone_check :
    scroll_camera_to_player 100 100 800 600 0 0 (0, 0) = (0, 0) :=
  (camera_dead_zone 100 100 800 600 0 0 0 0 3
    (by norm_num) (by norm_num) (by norm_num) (by norm_num)).1

/-! ### C9: the game-state set and mode selection -/

/-- C9 counterexample: the GameState enumeration carries no mode_select
member; its value set is exactly the five listed tags. -/
theorem game_state_no_mode_select :
    (GameState.all.map GameState.value).contains ("mode_select") = false ∧
    GameState.all.map GameState.value =
      ["playing", "game_over", "name_entry", "high_scores", "paused"] := by
  decide

/-- C9 amended: the state set is exactly PLAYING, GAME_OVER, NAME_ENTRY,
HIGH_SCORES and PAUSED (GameState.all is complete), and the GameMode enum
defines camera-margin multipliers 3.5, 1.0 and 0.7 that no transition of the
state machine consumes. -/
theorem game_state_machine_states :
    (∀ s : GameState, s ∈ GameState.all) ∧
    GameState.all.map GameState.value =
      ["playing", "game_over", "name_entry", "high_scores", "paused"] ∧
    GameMode.get_margin_multiplier .FLETCHY = 7 / 2 ∧
    GameMode.get_margin_multiplier .SPENCY = 1 ∧
    GameMode.get_margin_multiplier .CHARLIE = 7 / 10 := by
  refine ⟨fun s => ?_, by decide, ?_, ?_, ?_⟩
  · cases s <;> simp [GameState.all]
  · norm_num [GameMode.get_margin_multiplier]
  · norm_num [GameMode.get_margin_multiplier]
  · norm_num [GameMode.get_margin_multiplier]

/-! ### C10: the entered-name buffer -/

/-- C10: the entered-name buffer never exceeds 20 characters --
add_name_character is a no-op at length 20 and every operation preserves the
bound -- and confirming a blank (empty or whitespace-only) name substitutes
Anonymous before the transition to HIGH_SCORES. -/
theorem name_buffer_invariant (m : GameStateManager) (c : Char) (s : GameState) :
    (m.entered_name.length = 20 → m.add_name_character c = m) ∧
    (m.entered_name.length ≤ 20 →
      (m.add_name_character c).entered_name.length ≤ 20) ∧
    (m.entered_name.length ≤ 20 →
      m.remove_name_character.entered_name.length ≤ 20) ∧
    (m.entered_name.length ≤ 20 → (m.set_state s).entered_name.length ≤ 20) ∧
    (m.entered_name.length ≤ 20 → m.confirm_name.entered_name.length ≤ 20) ∧
    (m.entered_name.all (fun c => c.isWhitespace) = true →
      m.confirm_name.entered_name = ("Anonymous").toList) ∧
    m.confirm_name.current_state = .HIGH_SCORES := by
  refine ⟨?_, ?_, ?_, ?_, ?_, ?_, ?_⟩
  · intro h
    simp [GameStateManager.add_name_character, h]
  · intro h
    simp only [GameStateManager.add_name_character]
    split_ifs with hlt
    · simp only [List.length_append, List.length_singleton]
      omega
    · exact h
  · intro h
    simp only [GameStateManager.remove_name_character]
    split_ifs with hne
    · simp only [List.length_dropLast]
      omega
    · exact h
  · intro h
    simp only [GameStateManager.set_state, GameStateManager.reset_game]
    split_ifs <;> simp_all
  · intro h
    simp only [GameStateManager.confirm_name, GameStateManager.set_state,
      GameStateManager.reset_game]
    split_ifs <;> simp_all
  · intro h
    simp [GameStateManager.confirm_name, GameStateManager.set_state, h]
  · simp only [GameStateManager.confirm_name, GameStateManager.set_state]
    split_ifs <;> simp_all

/-- Closed check for C10: a whitespace-only buffer of length 20 is frozen by
add_name_character and replaced by Anonymous on confirmation. -/
theorem name_buffer_invariant_check :
    (let m : GameStateManager :=
      { GameStateManager.init with entered_name := List.replicate 20 ' ' }
     m.add_name_character 'x' = m ∧
     m.confirm_name.entered_name = ("Anonymous").toList ∧
     m.confirm_name.current_state = .HIGH_SCORES) := by
  refine ⟨?_, ?_, ?_⟩
  · exact (name_buffer_invariant _ 'x' .PLAYING).1 (by decide)
  · exact (name_buffer_invariant _ 'x' .PLAYING).2.2.2.2.2.1 (by decide)
  · exact (name_buffer_invariant _ 'x' .PLAYING).2.2.2.2.2.2

/-! ### C2: order-(in)dependence of chunk generation

Item chunk generation is order-independent: each call re-seeds the stream
from the chunk key alone and _get_item_texture performs no stream draws, so
the recorded list is the pure function items_for of the key (proved below
as a supporting lemma).  Obstacle chunk generation, however, is NOT: on the
first-ever metal_debris the rect_cluster branch of _get_obstacle_texture
(obstacle_manager.py lines 116-123) consumes twelve uniform draws from the
key-seeded stream inside Obstacle.__init__, but only on a texture-cache
miss, so a chunk entity list depends on whether an earlier-generated chunk
already warmed the cache.  The claim is the spec's stated determinism
requirement (and the chunk-key seeding exists precisely for it), so this is
a defect of the code, demonstrated concretely below. -/

/-- Every generated item chunk holds the canonical entity list of its key. -/
def ItemInv {σ : Type} (R : RngImpl σ) (pyHash : Int × Int → Int)
    (m : ItemManager σ) : Prop :=
  ∀ k, k ∈ m.generated_chunks →
    m.chunk_items.lookup k = some (items_for R pyHash k)

lemma itemInv_gen {σ : Type} (R : RngImpl σ) (pyHash : Int × Int → Int)
    (chunk_x chunk_y : Int) (m : ItemManager σ) (h : ItemInv R pyHash m) :
    ItemInv R pyHash (generate_chunk_items R pyHash chunk_x chunk_y m) := by
  by_cases hmem : (chunk_x, chunk_y) ∈ m.generated_chunks
  · simpa [generate_chunk_items, hmem] using h
  · intro k hk
    simp only [generate_chunk_items, if_neg hmem, List.mem_cons] at hk ⊢
    rcases hk with rfl | hk
    · simp [items_for]
    · by_cases hkey : k = (chunk_x, chunk_y)
      · subst hkey
        simp [items_for]
      · have hbeq : (k == (chunk_x, chunk_y)) = false :=
          beq_eq_false_iff_ne.mpr hkey
        rw [List.lookup_cons, hbeq]
        exact h k hk

lemma itemInv_run {σ : Type} (R : RngImpl σ) (pyHash : Int × Int → Int)
    (keys : List (Int × Int)) (m : ItemManager σ) (h : ItemInv R pyHash m) :
    ItemInv R pyHash (run_item_gen R pyHash keys m) := by
  induction keys generalizing m with
  | nil => exact h
  | cons k rest ih => exact ih _ (itemInv_gen R pyHash k.1 k.2 m h)

/-- Supporting lemma: the item half of the determinism property does hold --
two item-generation runs over any two key sequences record the canonical
list for any key both generated. -/
lemma item_generation_deterministic {σ : Type} (R : RngImpl σ)
    (pyHash : Int × Int → Int) (s1 s2 : σ)
    (keys1 keys2 : List (Int × Int)) (k : Int × Int)
    (hi1 : k ∈ (run_item_gen R pyHash keys1
      { generated_chunks := [], chunk_items := [], rng := s1 }).generated_chunks)
    (hi2 : k ∈ (run_item_gen R pyHash keys2
      { generated_chunks := [], chunk_items := [], rng := s2 }).generated_chunks) :
    (run_item_gen R pyHash keys1
        { generated_chunks := [], chunk_items := [], rng := s1 }).chunk_items.lookup k =
      some (items_for R pyHash k) ∧
    (run_item_gen R pyHash keys2
        { generated_chunks := [], chunk_items := [], rng := s2 }).chunk_items.lookup k =
      some (items_for R pyHash k) := by
  have base1 : ItemInv R pyHash
      { generated_chunks := [], chunk_items := [], rng := s1 } := by
    intro k hk
    simp at hk
  have base2 : ItemInv R pyHash
      { generated_chunks := [], chunk_items := [], rng := s2 } := by
    intro k hk
    simp at hk
  exact ⟨itemInv_run R pyHash keys1 _ base1 k hi1,
         itemInv_run R pyHash keys2 _ base2 k hi2⟩

/-- A concrete generator whose uniform draws encode the current stream
position (the state counts draws), making any shift of the stream visible
in the drawn positions. -/
def shiftRng : RngImpl ℚ :=
  { randint := fun _ _ s => (2, s + 1)
    uniform := fun _ _ s => (100 * s, s + 1)
    random := fun s => (1, s + 1)
    seed := fun _ => 0
    fresh := 0 }

set_option maxRecDepth 8000 in
unseal Rat.add Rat.mul Rat.sub Rat.ofScientific in
/-- C2: the code violates the claimed order-independence.  Generating
obstacle chunk (0, 0) alone records a different entity list for (0, 0) than
generating chunk (1, 1) first and then (0, 0): chunk (1, 1) constructs the
first metal_debris, whose texture cache miss consumes the twelve uniform
draws, so in the second run chunk (0, 0) is generated with a warm cache and
its draws land at different stream positions.  Both runs use the same
generator implementation, seed function and type table. -/
theorem obstacle_generation_order_dependent :
    (run_obstacle_gen shiftRng pairHash [(0, 0)]
      { generated_chunks := [], chunk_obstacles := [], texture_cache := [],
        rng := 0 }).chunk_obstacles.lookup (0, 0) ≠
    (run_obstacle_gen shiftRng pairHash [(1, 1), (0, 0)]
      { generated_chunks := [], chunk_obstacles := [], texture_cache := [],
        rng := 0 }).chunk_obstacles.lookup (0, 0) := by
  decide

/-! ### C6: obstacle spacing and the attempt cap -/

/-- The spacing relation guaranteed between placed obstacles (squared form
of: centre distance at least radius_a + radius_b + buffer 20). -/
def spaced (a b : ObstacleEnt) : Prop :=
  (a.radius + b.radius + 20) ^ 2 ≤ dist_sq a b

lemma spaced_symm {a b : ObstacleEnt} (h : spaced a b) : spaced b a := by
  unfold spaced dist_sq at h ⊢
  have h1 : (b.radius + a.radius + 20) ^ 2 = (a.radius + b.radius + 20) ^ 2 := by ring
  have h2 : (b.center_x - a.center_x) ^ 2 + (b.center_y - a.center_y) ^ 2 =
      (a.center_x - b.center_x) ^ 2 + (a.center_y - b.center_y) ^ 2 := by ring
  rw [h1, h2]
  exact h

lemma valid_position_spaced {new_obstacle : ObstacleEnt}
    {current : List ObstacleEnt}
    (h : valid_position new_obstacle current = true) :
    ∀ e ∈ current, spaced e new_obstacle := by
  intro e he
  have h1 := List.all_eq_true.mp h e he
  have h2 : (new_obstacle.radius + e.radius + 20) ^ 2 ≤ dist_sq new_obstacle e :=
    of_decide_eq_true h1
  exact spaced_symm h2

lemma place_obstacles_pairwise {σ : Type} (R : RngImpl σ)
    (chunk_x chunk_y : Int) (num_obstacles : Nat) :
    ∀ (fuel : Nat) (current : List ObstacleEnt) (attempts : Nat)
      (cache : List String) (s : σ),
      current.Pairwise spaced →
      ((place_obstacles R chunk_x chunk_y num_obstacles fuel current
        attempts cache s).1).Pairwise spaced := by
  intro fuel
  induction fuel with
  | zero => intro current attempts cache s h; exact h
  | succ fuel ih =>
    intro current attempts cache s h
    simp only [place_obstacles]
    split_ifs with hlen hvalid
    · apply ih
      rw [List.pairwise_append]
      refine ⟨h, List.pairwise_singleton _ _, ?_⟩
      intro a ha b hb
      rw [List.mem_singleton] at hb
      subst hb
      exact valid_position_spaced hvalid a ha
    · exact ih _ _ _ _ h
    · exact h

lemma place_obstacles_attempts {σ : Type} (R : RngImpl σ)
    (chunk_x chunk_y : Int) (num_obstacles : Nat) :
    ∀ (fuel : Nat) (current : List ObstacleEnt) (attempts : Nat)
      (cache : List String) (s : σ),
      (place_obstacles R chunk_x chunk_y num_obstacles fuel current
        attempts cache s).2.1 ≤ attempts + fuel := by
  intro fuel
  induction fuel with
  | zero => intro current attempts cache s; exact Nat.le_add_right _ _
  | succ fuel ih =>
    intro current attempts cache s
    simp only [place_obstacles]
    split_ifs with hlen hvalid
    · exact le_trans (ih _ _ _ _) (by omega)
    · exact le_trans (ih _ _ _ _) (by omega)
    · exact Nat.le_add_right _ _

/-- C6: for every chunk generation (any generator implementation, texture
cache and stream state), any two placed obstacles are spaced at least
radius_a + radius_b + 20 apart (stated on squared distances, which is
equivalent for nonnegative quantities), and the placement loop makes at most
3 x target_count attempts while always returning a list (whatever count was
achieved). -/
theorem obstacle_spacing_and_attempt_cap {σ : Type} (R : RngImpl σ)
    (cache : List String) (chunk_x chunk_y : Int) (s : σ) :
    ((obstacle_chunk_body R cache chunk_x chunk_y s).1).Pairwise spaced ∧
    (obstacle_chunk_body R cache chunk_x chunk_y s).2.1 ≤
      3 * (R.randint (OBSTACLES_PER_CHUNK - 2) (OBSTACLES_PER_CHUNK + 4) s).1.toNat := by
  constructor
  · exact place_obstacles_pairwise R chunk_x chunk_y _ _ [] 0 cache _
      List.Pairwise.nil
  · have h := place_obstacles_attempts R chunk_x chunk_y
      ((R.randint (OBSTACLES_PER_CHUNK - 2) (OBSTACLES_PER_CHUNK + 4) s).1.toNat)
      ((R.randint (OBSTACLES_PER_CHUNK - 2) (OBSTACLES_PER_CHUNK + 4) s).1.toNat * 3)
      [] 0 cache
      ((R.randint (OBSTACLES_PER_CHUNK - 2) (OBSTACLES_PER_CHUNK + 4) s).2)
    simp only [obstacle_chunk_body]
    omega

/-! ### C7: cumulative-weighted selection and its fallback -/

/-- The cumulative weight of the first i + 1 entries of a type-rate table. -/
def rate_cumul (table : List (String × ℚ)) (i : Nat) : ℚ :=
  ((table.map Prod.snd).take (i + 1)).sum

lemma rate_cumul_cons_zero (hd : String × ℚ) (tl : List (String × ℚ)) :
    rate_cumul (hd :: tl) 0 = hd.2 := by
  simp [rate_cumul]

lemma rate_cumul_cons_succ (hd : String × ℚ) (tl : List (String × ℚ))
    (j : Nat) : rate_cumul (hd :: tl) (j + 1) = hd.2 + rate_cumul tl j := by
  simp [rate_cumul, List.take_succ_cons, List.sum_cons]

/-- The cumulative walk selects the first entry whose cumulative rate
(offset by the accumulator) reaches the draw. -/
lemma select_go_first (d : String) (rand_val : ℚ) :
    ∀ (table : List (String × ℚ)) (cum : ℚ) (i : Nat) (hi : i < table.length),
      rand_val ≤ cum + rate_cumul table i →
      (∀ j, j < i → cum + rate_cumul table j < rand_val) →
      select_go d rand_val table cum = (table.get ⟨i, hi⟩).1 := by
  intro table
  induction table with
  | nil =>
    intro cum i hi
    simp at hi
  | cons hd tl ih =>
    intro cum i hi hle hgt
    obtain ⟨t, rate⟩ := hd
    cases i with
    | zero =>
      have h1 : rand_val ≤ cum + rate := by
        have := hle
        rw [rate_cumul_cons_zero] at this
        exact this
      simp [select_go, h1]
    | succ j =>
      have h0 : cum + rate < rand_val := by
        have := hgt 0 (Nat.succ_pos j)
        rw [rate_cumul_cons_zero] at this
        exact this
      have hif : ¬ rand_val ≤ cum + rate := not_le.mpr h0
      simp only [select_go, if_neg hif, List.get_cons_succ]
      apply ih (cum + rate) j (by simpa using hi)
      · have := hle
        rw [rate_cumul_cons_succ] at this
        linarith
      · intro j2 hj2
        have := hgt (j2 + 1) (by omega)
        rw [rate_cumul_cons_succ] at this
        linarith

/-- When the draw exceeds every cumulative rate of the item table (total 1),
the walk falls through and returns the initial default, battery. -/
lemma select_item_type_overshoot (rand_val : ℚ) (h : 1 < rand_val) :
    select_item_type rand_val = ("battery") := by
  simp only [select_item_type, select_weighted, item_rate_table, ITEM_TYPES,
    List.map_cons, List.map_nil, select_go]
  split_ifs <;> first | rfl | (exfalso; linarith)

/-- Likewise for the obstacle table (total 1): the fallback is rock. -/
lemma select_obstacle_type_overshoot (rand_val : ℚ) (h : 1 < rand_val) :
    select_obstacle_type rand_val = ("rock") := by
  simp only [select_obstacle_type, select_weighted, obstacle_rate_table,
    OBSTACLE_TYPES, List.map_cons, List.map_nil, select_go]
  split_ifs <;> first | rfl | (exfalso; linarith)

/-- C7 counterexample: on an overshooting draw the selected item type is the
default battery, the first entry of the table, not the last entry
power_core as the claim states. -/
theorem weighted_fallback_not_last :
    (item_rate_table.map Prod.snd).sum = 1 ∧
    (1 : ℚ) < 1.01 ∧
    (item_rate_table.map Prod.fst).getLast? = some ("power_core") ∧
    select_item_type 1.01 = ("battery") ∧
    ("battery" : String) ≠ "power_core" := by
  refine ⟨?_, by norm_num, by rfl, ?_, by decide⟩
  · norm_num [item_rate_table, ITEM_TYPES]
  · exact select_item_type_overshoot 1.01 (by norm_num)

/-- C7 amended: the selected type is the first table entry whose cumulative
weight reaches the draw, and a draw exceeding the total cumulative weight
(1 for both tables) falls back to the default initial type -- battery and
rock, each the first entry of its table, not the last. -/
theorem weighted_selection_spec (rand_val : ℚ) (i : Nat)
    (hi : i < item_rate_table.length)
    (hreach : rand_val ≤ rate_cumul item_rate_table i)
    (hfirst : ∀ j, j < i → rate_cumul item_rate_table j < rand_val) :
    select_item_type rand_val = (item_rate_table.get ⟨i, hi⟩).1 ∧
    (∀ x : ℚ, 1 < x → select_item_type x = ("battery")) ∧
    (∀ x : ℚ, 1 < x → select_obstacle_type x = ("rock")) ∧
    (item_rate_table.map Prod.fst).head? = some ("battery") ∧
    (obstacle_rate_table.map Prod.fst).head? = some ("rock") ∧
    (item_rate_table.map Prod.snd).sum = 1 ∧
    (obstacle_rate_table.map Prod.snd).sum = 1 := by
  refine ⟨?_, select_item_type_overshoot, select_obstacle_type_overshoot,
    by rfl, by rfl, ?_, ?_⟩
  · apply select_go_first ("battery") rand_val item_rate_table 0 i hi
    · simpa using hreach
    · intro j hj
      simpa using hfirst j hj
  · norm_num [item_rate_table, ITEM_TYPES]
  · norm_num [obstacle_rate_table, OBSTACLE_TYPES]

/-- Closed check for C7 (amended): the draw 1/2 lands in the second
cumulative band (0.4 < 1/2 <= 0.7) and selects gear. -/
theorem weighted_selection_spec_check :
    select_item_type (1 / 2) = ("gear") := by
  have h := (weighted_selection_spec (1 / 2) 1
    (by norm_num [item_rate_table, ITEM_TYPES])
    (by norm_num [rate_cumul, item_rate_table, ITEM_TYPES])
    (by
      intro j hj
      have hj0 : j = 0 := by omega
      subst hj0
      norm_num [rate_cumul, item_rate_table, ITEM_TYPES])).1
  simpa [item_rate_table, ITEM_TYPES] using h

/-! ### C5: the high-score ledger add operation -/

lemma hs_le_trans : ∀ a b c : HSEntry, hs_le a b → hs_le b c → hs_le a c := by
  intro a b c hab hbc
  simp only [hs_le, decide_eq_true_eq] at hab hbc ⊢
  rcases hab with h1 | ⟨h1, h2⟩ <;> rcases hbc with h3 | ⟨h3, h4⟩
  · exact Or.inl (lt_trans h3 h1)
  · exact Or.inl (h3 ▸ h1)
  · exact Or.inl (h1 ▸ h3)
  · exact Or.inr ⟨h1.trans h3, h2.trans h4⟩

lemma hs_le_total : ∀ a b : HSEntry, hs_le a b || hs_le b a := by
  intro a b
  simp only [hs_le, Bool.or_eq_true, decide_eq_true_eq]
  rcases lt_trichotomy a.score b.score with h | h | h
  · exact Or.inr (Or.inl h)
  · rcases le_total a.time b.time with ht | ht
    · exact Or.inl (Or.inr ⟨h, ht⟩)
    · exact Or.inr (Or.inr ⟨h.symm, ht⟩)
  · exact Or.inl (Or.inl h)

lemma find_pos_eq_zero_iff (e : HSEntry) :
    ∀ (l : List HSEntry) (i : Nat), (find_pos l e i = 0 ↔ e ∉ l) := by
  intro l
  induction l with
  | nil => intro i; simp [find_pos]
  | cons x xs ih =>
    intro i
    by_cases hx : x = e
    · subst hx
      simp [find_pos]
    · simp only [find_pos, if_neg hx, List.mem_cons]
      rw [ih (i + 1)]
      constructor
      · intro h hmem
        rcases hmem with h1 | h1
        · exact hx h1.symm
        · exact h h1
      · intro h
        exact fun hmem => h (Or.inr hmem)

lemma find_pos_mem (e : HSEntry) :
    ∀ (l : List HSEntry) (i : Nat), e ∈ l →
      ∃ j, find_pos l e i = i + j + 1 ∧ l[j]? = some e ∧
        ∀ j2, j2 < j → l[j2]? ≠ some e := by
  intro l
  induction l with
  | nil => intro i h; simp at h
  | cons x xs ih =>
    intro i hmem
    by_cases hx : x = e
    · subst hx
      refine ⟨0, by simp [find_pos], by simp, ?_⟩
      intro j2 hj2
      omega
    · have hmem2 : e ∈ xs := by
        rcases List.mem_cons.mp hmem with h1 | h1
        · exact absurd h1.symm hx
        · exact h1
      obtain ⟨j, hfind, hget, hmin⟩ := ih (i + 1) hmem2
      refine ⟨j + 1, ?_, by simpa using hget, ?_⟩
      · simp only [find_pos, if_neg hx]
        rw [hfind]
        omega
      · intro j2 hj2
        cases j2 with
        | zero =>
          simp only [List.getElem?_cons_zero]
          intro hcontra
          exact hx (Option.some.inj hcontra)
        | succ k =>
          simp only [List.getElem?_cons_succ]
          exact hmin k (by omega)

unseal List.merge List.mergeSort Rat.ofScientific in
/-- The spec's four-insertion example evaluated through add_score: scores
[80, 95, 60, 95] with times [10.0, 8.0, 20.0, 7.5] into an empty ledger. -/
lemma hs_example :
    add_score (add_score (add_score (add_score [] ("A") 80 10.0).1
      ("B") 95 8.0).1 ("C") 60 20.0).1 ("D") 95 7.5 =
    ([{ name := "D", score := 95, time := 7.5 },
      { name := "B", score := 95, time := 8.0 },
      { name := "A", score := 80, time := 10.0 },
      { name := "C", score := 60, time := 20.0 }], 1) := rfl

/-- C5: a qualifying add sorts the ledger by score descending with ties
broken by time ascending, truncates it to at most 10 entries drawn from the
old ledger plus the new entry, and returns the 1-based rank of the inserted
entry (0 exactly when the entry fell outside the kept top 10); the spec's
four-insertion example produces the order [95/7.5, 95/8, 80/10, 60/20]. -/
theorem high_score_add (l : List HSEntry) (name : String) (score : Int)
    (time : ℚ) (hq : is_high_score l score time = true) :
    ((add_score l name score time).1).Pairwise
      (fun a b => b.score < a.score ∨ (a.score = b.score ∧ a.time ≤ b.time)) ∧
    (add_score l name score time).1.length ≤ 10 ∧
    List.Subperm (add_score l name score time).1
      (l ++ [{ name := name, score := score, time := time }]) ∧
    ((add_score l name score time).2 = 0 ↔
      ({ name := name, score := score, time := time } : HSEntry) ∉
        (add_score l name score time).1) ∧
    (0 < (add_score l name score time).2 →
      (add_score l name score time).1[(add_score l name score time).2 - 1]? =
        some { name := name, score := score, time := time } ∧
      ∀ j, j < (add_score l name score time).2 - 1 →
        (add_score l name score time).1[j]? ≠
          some { name := name, score := score, time := time }) ∧
    add_score (add_score (add_score (add_score [] ("A") 80 10.0).1
      ("B") 95 8.0).1 ("C") 60 20.0).1 ("D") 95 7.5 =
    ([{ name := "D", score := 95, time := 7.5 },
      { name := "B", score := 95, time := 8.0 },
      { name := "A", score := 80, time := 10.0 },
      { name := "C", score := 60, time := 20.0 }], 1) := by
  have hadd : add_score l name score time =
      (save_scores (l ++ [{ name := name, score := score, time := time }]),
       find_pos (save_scores (l ++ [{ name := name, score := score, time := time }]))
         { name := name, score := score, time := time } 0) := by
    simp [add_score, hq]
  rw [hadd]
  have hsortedB : (save_scores
      (l ++ [{ name := name, score := score, time := time }])).Pairwise
      (fun a b => hs_le a b = true) := by
    have hp := @List.sorted_mergeSort HSEntry hs_le hs_le_trans hs_le_total
      (l ++ [{ name := name, score := score, time := time }])
    exact hp.sublist (List.take_sublist _ _)
  refine ⟨?_, ?_, ?_, ?_, ?_, hs_example⟩
  · refine hsortedB.imp ?_
    intro a b hab
    exact of_decide_eq_true hab
  · simp only [save_scores]
    have := List.length_take 10
      ((l ++ [({ name := name, score := score, time := time } : HSEntry)]).mergeSort hs_le)
    omega
  · have h1 : List.Sublist
        (save_scores (l ++ [{ name := name, score := score, time := time }]))
        ((l ++ [({ name := name, score := score, time := time } : HSEntry)]).mergeSort hs_le) :=
      List.take_sublist _ _
    exact h1.subperm.trans (List.mergeSort_perm _ _).subperm
  · exact find_pos_eq_zero_iff _ _ 0
  · intro hpos
    have hmem : ({ name := name, score := score, time := time } : HSEntry) ∈
        save_scores (l ++ [{ name := name, score := score, time := time }]) := by
      by_contra hnot
      rw [← find_pos_eq_zero_iff _ _ 0] at hnot
      omega
    obtain ⟨j, hfind, hget, hmin⟩ := find_pos_mem _ _ 0 hmem
    constructor
    · rw [hfind]
      simpa using hget
    · intro j2 hj2
      rw [hfind] at hj2
      exact hmin j2 (by omega)

/-- Closed check for C5: the first insertion into the empty ledger
qualifies, keeps at most 10 entries, and reports rank 1 (the entry is in the
kept list). -/
theorem high_score_add_check :
    (add_score [] ("A") 80 10).1.length ≤ 10 ∧
    ((add_score [] ("A") 80 10).2 = 0 ↔
      ({ name := "A", score := 80, time := 10 } : HSEntry) ∉
        (add_score [] ("A") 80 10).1) := by
  have h := high_score_add [] ("A") 80 10 (by decide)
  exact ⟨h.2.1, h.2.2.2.1⟩

end OctoRobot
